import Mathlib

/-!
Formal model of the Soroban micro-tip platform contract
(src/contracts/microtip/src/lib.rs), as a shallow embedding.

Contract storage becomes an explicit `State` record (the tip log vector
stored under a single key, the `Balance` records keyed by (user, token),
and the `UserProfile` records keyed by user).  The external collaborators
become explicit inputs: caller authorization (`require_auth`) and the
external token transfer are boolean oracles, the ledger timestamp and
sequence number are numeric inputs.  Panics in the contract become
`Except` errors drawn from the spec's error taxonomy.  Every entry point
returns, together with its result, the storage exactly as persisted at the
point execution stopped — in particular `withdraw` persists its balance
mutation before attempting the outbound transfer, as the source does.
-/

namespace Microtip

/-- Participant and token-contract addresses, as abstract identifiers. -/
abbrev Addr := Nat

/-- One tip record (struct `Tip` in lib.rs).  The Rust fields `from` and
`to` are spelled `from_` and `to_` here because both are Lean keywords. -/
structure Tip where
  from_ : Addr
  to_ : Addr
  amount : Int
  message : String
  timestamp : Nat
  token : Addr
deriving Repr, DecidableEq

/-- Balance record of a (user, token) pair (struct `Balance` in lib.rs). -/
structure Balance where
  total_received : Int
  available : Int
  withdrawn : Int
  token : Addr
deriving Repr, DecidableEq

/-- Per-user aggregate statistics (struct `UserProfile` in lib.rs). -/
structure UserProfile where
  tips_sent : Nat
  tips_received : Nat
  total_sent : Int
  total_received : Int
  first_interaction : Nat
deriving Repr, DecidableEq

/-- Contract storage: the tip log (one vector under the fixed `tip` key),
the balance records (key `balance_{user}_{token}`), and the profile
records (key `profile_{user}`), the composite keys modelled as typed
pairs. -/
structure State where
  tips : List Tip
  balances : Addr → Addr → Option Balance
  profiles : Addr → Option UserProfile

/-- The contract's failure taxonomy: each distinct `require_auth` /
`assert!` / `expect` / token-transfer failure path in lib.rs. -/
inductive Err where
  | AuthorizationError
  | InvalidAmountError
  | SelfTipError
  | MessageTooLongError
  | NoBalanceError
  | InsufficientBalanceError
  | TransferFailure
deriving Repr, DecidableEq

/-- Empty storage: the freshly deployed contract, before any call. -/
def initState : State := ⟨[], fun _ _ => none, fun _ => none⟩

/-- `env.storage().instance().set` on a balance key. -/
def setBalance (s : State) (u tk : Addr) (b : Balance) : State :=
  { s with balances := fun u' tk' => if u' = u ∧ tk' = tk then some b else s.balances u' tk' }

/-- `env.storage().instance().set` on a profile key. -/
def setProfile (s : State) (u : Addr) (p : UserProfile) : State :=
  { s with profiles := fun u' => if u' = u then some p else s.profiles u' }

/-- `MicrotipContract::update_balance`: read-or-default the balance of
(user, token); on a deposit add `amount` to both `total_received` and
`available`; write the record back. -/
def update_balance (s : State) (user token : Addr) (amount : Int) (is_deposit : Bool) : State :=
  let balance := (s.balances user token).getD ⟨0, 0, 0, token⟩
  let balance :=
    if is_deposit then
      { balance with
        total_received := balance.total_received + amount
        available := balance.available + amount }
    else balance
  setBalance s user token balance

/-- `MicrotipContract::update_sender_profile`: read-or-default the profile
(the default stamps `first_interaction` with the current ledger
timestamp), bump `tips_sent` and `total_sent`, write back. -/
def update_sender_profile (s : State) (now : Nat) (user : Addr) (amount : Int) : State :=
  let profile := (s.profiles user).getD ⟨0, 0, 0, 0, now⟩
  setProfile s user
    { profile with
      tips_sent := profile.tips_sent + 1
      total_sent := profile.total_sent + amount }

/-- `MicrotipContract::update_recipient_profile`: read-or-default the
profile, bump `tips_received` and `total_received`, write back. -/
def update_recipient_profile (s : State) (now : Nat) (user : Addr) (amount : Int) : State :=
  let profile := (s.profiles user).getD ⟨0, 0, 0, 0, now⟩
  setProfile s user
    { profile with
      tips_received := profile.tips_received + 1
      total_received := profile.total_received + amount }

/-- `MicrotipContract::send_tip`.  Checks in source order: `require_auth`
for `from`, `amount > 0`, `from != to`, message length at most 256, then
the external token transfer (`transferOk` is the transfer oracle; a
failed transfer aborts before any storage write).  On success it appends
the `Tip`, deposits into the recipient's balance, updates both profiles,
and returns the ledger sequence number as the tip id.  The second
component of the result is the storage as persisted when execution
stopped. -/
def send_tip (s : State) (authOk transferOk : Bool) (now seq : Nat)
    (from_ to_ token : Addr) (amount : Int) (message : String) :
    Except Err Nat × State :=
  if ¬ authOk then (Except.error Err.AuthorizationError, s)
  else if ¬ (amount > 0) then (Except.error Err.InvalidAmountError, s)
  else if from_ = to_ then (Except.error Err.SelfTipError, s)
  else if ¬ (message.length ≤ 256) then (Except.error Err.MessageTooLongError, s)
  else if ¬ transferOk then (Except.error Err.TransferFailure, s)
  else
    let tip : Tip := ⟨from_, to_, amount, message, now, token⟩
    let s1 := { s with tips := s.tips ++ [tip] }
    let s2 := update_balance s1 to_ token amount true
    let s3 := update_sender_profile s2 now from_ amount
    let s4 := update_recipient_profile s3 now to_ amount
    (Except.ok seq, s4)

/-- `MicrotipContract::withdraw`.  Checks in source order: `require_auth`
for `user`, `amount > 0`, a balance record exists, `available >= amount`.
It then decrements `available`, increments `withdrawn`, PERSISTS the
balance, and only afterwards attempts the outbound token transfer: a
transfer failure aborts with the mutated balance already written, exactly
as in the source. -/
def withdraw (s : State) (authOk transferOk : Bool) (user token : Addr) (amount : Int) :
    Except Err Unit × State :=
  if ¬ authOk then (Except.error Err.AuthorizationError, s)
  else if ¬ (amount > 0) then (Except.error Err.InvalidAmountError, s)
  else
    match s.balances user token with
    | none => (Except.error Err.NoBalanceError, s)
    | some balance =>
      if ¬ (balance.available ≥ amount) then (Except.error Err.InsufficientBalanceError, s)
      else
        let balance :=
          { balance with
            available := balance.available - amount
            withdrawn := balance.withdrawn + amount }
        let s1 := setBalance s user token balance
        if ¬ transferOk then (Except.error Err.TransferFailure, s1)
        else (Except.ok (), s1)

/-- `MicrotipContract::get_balance`: read the balance record, defaulting
to the zero balance (not persisted).  No write is performed; the returned
state is the storage after the call. -/
def get_balance (s : State) (user token : Addr) : Balance × State :=
  ((s.balances user token).getD ⟨0, 0, 0, token⟩, s)

/-- `MicrotipContract::get_user_profile`: read the profile record,
defaulting to a zero profile whose `first_interaction` is the current
ledger timestamp (not persisted). -/
def get_user_profile (s : State) (now : Nat) (user : Addr) : UserProfile × State :=
  ((s.profiles user).getD ⟨0, 0, 0, 0, now⟩, s)

/-- `MicrotipContract::get_tips_for_user`: linear scan of the full tip
log, pushing every tip whose `to` equals the user onto a fresh vector. -/
def get_tips_for_user (s : State) (user : Addr) : List Tip × State :=
  (s.tips.foldl (fun acc tp => if tp.to_ == user then acc ++ [tp] else acc) [], s)

/-- `MicrotipContract::get_total_tips_count`: length of the tip log. -/
def get_total_tips_count (s : State) : Nat × State :=
  (s.tips.length, s)

/-- States reachable from the empty storage by any sequence of `send_tip`
and `withdraw` calls, with arbitrary oracle outcomes; the resulting state
of a failed call (storage as persisted at the abort point) is included. -/
inductive Reachable : State → Prop
  | init : Reachable initState
  | tip (s : State) (authOk transferOk : Bool) (now seq : Nat) (from_ to_ token : Addr)
      (amount : Int) (message : String) (h : Reachable s) :
      Reachable (send_tip s authOk transferOk now seq from_ to_ token amount message).2
  | wd (s : State) (authOk transferOk : Bool) (user token : Addr) (amount : Int)
      (h : Reachable s) :
      Reachable (withdraw s authOk transferOk user token amount).2

/-! Observation helpers used to state the spec's aggregate properties. -/

/-- The `total_sent` the storage records for a user (0 when no profile
record exists). -/
def totalSentOf (s : State) (p : Addr) : Int :=
  match s.profiles p with
  | some pr => pr.total_sent
  | none => 0

/-- The `total_received` the storage records for a user (0 when no
profile record exists). -/
def totalReceivedOf (s : State) (p : Addr) : Int :=
  match s.profiles p with
  | some pr => pr.total_received
  | none => 0

/-- Sum of the amounts of the tips in `l` sent by `p`. -/
def sentSum (p : Addr) (l : List Tip) : Int :=
  ((l.filter (fun tp => tp.from_ == p)).map Tip.amount).sum

/-- Sum of the amounts of the tips in `l` received by `p`. -/
def recvSum (p : Addr) (l : List Tip) : Int :=
  ((l.filter (fun tp => tp.to_ == p)).map Tip.amount).sum

/-! Projection lemmas: which storage components each helper touches. -/

@[simp] lemma setBalance_tips (s : State) (u tk : Addr) (b : Balance) :
    (setBalance s u tk b).tips = s.tips := rfl

@[simp] lemma setBalance_profiles (s : State) (u tk : Addr) (b : Balance) :
    (setBalance s u tk b).profiles = s.profiles := rfl

@[simp] lemma setProfile_tips (s : State) (u : Addr) (p : UserProfile) :
    (setProfile s u p).tips = s.tips := rfl

@[simp] lemma setProfile_balances (s : State) (u : Addr) (p : UserProfile) :
    (setProfile s u p).balances = s.balances := rfl

@[simp] lemma update_balance_tips (s : State) (u tk : Addr) (amt : Int) (d : Bool) :
    (update_balance s u tk amt d).tips = s.tips := rfl

@[simp] lemma update_balance_profiles (s : State) (u tk : Addr) (amt : Int) (d : Bool) :
    (update_balance s u tk amt d).profiles = s.profiles := rfl

@[simp] lemma update_sender_profile_tips (s : State) (now : Nat) (u : Addr) (amt : Int) :
    (update_sender_profile s now u amt).tips = s.tips := rfl

@[simp] lemma update_sender_profile_balances (s : State) (now : Nat) (u : Addr) (amt : Int) :
    (update_sender_profile s now u amt).balances = s.balances := rfl

@[simp] lemma update_recipient_profile_tips (s : State) (now : Nat) (u : Addr) (amt : Int) :
    (update_recipient_profile s now u amt).tips = s.tips := rfl

@[simp] lemma update_recipient_profile_balances (s : State) (now : Nat) (u : Addr) (amt : Int) :
    (update_recipient_profile s now u amt).balances = s.balances := rfl

/-! Case analysis of the two entry points. -/

/-- Every `send_tip` call either aborts with an error and the storage
untouched, or succeeds with all four guards and the transfer satisfied
and performs the append / deposit / two profile updates of the source. -/
lemma send_tip_spec (s : State) (a tOk : Bool) (now seq : Nat) (f t tk : Addr)
    (amt : Int) (msg : String) :
    (∃ e, (send_tip s a tOk now seq f t tk amt msg).1 = Except.error e ∧
      (send_tip s a tOk now seq f t tk amt msg).2 = s) ∨
    (a = true ∧ tOk = true ∧ 0 < amt ∧ f ≠ t ∧ msg.length ≤ 256 ∧
      (send_tip s a tOk now seq f t tk amt msg).1 = Except.ok seq ∧
      (send_tip s a tOk now seq f t tk amt msg).2 =
        update_recipient_profile (update_sender_profile (update_balance
          { s with tips := s.tips ++ [⟨f, t, amt, msg, now, tk⟩] } t tk amt true)
          now f amt) now t amt) := by
  cases a with
  | false =>
    exact Or.inl ⟨Err.AuthorizationError, by simp [send_tip], by simp [send_tip]⟩
  | true =>
    by_cases h1 : amt ≤ 0
    · exact Or.inl ⟨Err.InvalidAmountError, by simp [send_tip, not_lt.mpr h1],
        by simp [send_tip, not_lt.mpr h1]⟩
    push_neg at h1
    by_cases h2 : f = t
    · exact Or.inl ⟨Err.SelfTipError, by simp [send_tip, h1, h2], by simp [send_tip, h1, h2]⟩
    by_cases h3 : msg.length ≤ 256
    · cases tOk with
      | false =>
        exact Or.inl ⟨Err.TransferFailure, by simp [send_tip, h1, h2, h3],
          by simp [send_tip, h1, h2, h3]⟩
      | true =>
        exact Or.inr ⟨rfl, rfl, h1, h2, h3, by simp [send_tip, h1, h2, h3],
          by simp [send_tip, h1, h2, h3]⟩
    · exact Or.inl ⟨Err.MessageTooLongError, by simp [send_tip, h1, h2, h3],
        by simp [send_tip, h1, h2, h3]⟩

/-- Every `withdraw` call either aborts with an error before any write,
or passes all guards and persists the decremented balance — whether or
not the subsequent outbound transfer succeeds. -/
lemma withdraw_spec (s : State) (a tOk : Bool) (u tk : Addr) (amt : Int) :
    (∃ e, (withdraw s a tOk u tk amt).1 = Except.error e ∧
      (withdraw s a tOk u tk amt).2 = s) ∨
    (∃ b, s.balances u tk = some b ∧ 0 < amt ∧ amt ≤ b.available ∧
      (withdraw s a tOk u tk amt).2 =
        setBalance s u tk
          { b with available := b.available - amt, withdrawn := b.withdrawn + amt }) := by
  cases a with
  | false => exact Or.inl ⟨Err.AuthorizationError, by simp [withdraw], by simp [withdraw]⟩
  | true =>
    by_cases h1 : amt ≤ 0
    · exact Or.inl ⟨Err.InvalidAmountError, by simp [withdraw, not_lt.mpr h1],
        by simp [withdraw, not_lt.mpr h1]⟩
    push_neg at h1
    cases hb : s.balances u tk with
    | none => exact Or.inl ⟨Err.NoBalanceError, by simp [withdraw, h1, hb], by simp [withdraw, h1, hb]⟩
    | some b =>
      by_cases h2 : amt ≤ b.available
      · refine Or.inr ⟨b, rfl, h1, h2, ?_⟩
        cases tOk <;> simp [withdraw, h1, hb, ge_iff_le, h2]
      · exact Or.inl ⟨Err.InsufficientBalanceError, by simp [withdraw, h1, hb, ge_iff_le, h2],
          by simp [withdraw, h1, hb, ge_iff_le, h2]⟩

/-- Invariant of every reachable storage: each persisted balance record
satisfies the accounting equation and both spendable fields are
non-negative. -/
lemma reachable_balance {s : State} (h : Reachable s) :
    ∀ u tk b, s.balances u tk = some b →
      b.total_received = b.available + b.withdrawn ∧ 0 ≤ b.available ∧ 0 ≤ b.withdrawn := by
  induction h with
  | init =>
    intro u tk b hb
    simp [initState] at hb
  | tip s a tOk now seq f t tk' amt msg hs ih =>
    intro u tk b hb
    rcases send_tip_spec s a tOk now seq f t tk' amt msg with ⟨e, _, he⟩ | ⟨_, _, h1, h2, _, _, he⟩
    · rw [he] at hb
      exact ih u tk b hb
    · rw [he] at hb
      simp only [update_recipient_profile_balances, update_sender_profile_balances,
        update_balance, setBalance] at hb
      by_cases hk : u = t ∧ tk = tk'
      · rw [if_pos hk] at hb
        cases hold : s.balances t tk' with
        | none =>
          rw [hold] at hb
          simp only [Option.getD_none] at hb
          injection hb with hb'
          subst hb'
          refine ⟨by simp, by simp; omega, by simp⟩
        | some ob =>
          rw [hold] at hb
          simp only [Option.getD_some] at hb
          injection hb with hb'
          subst hb'
          obtain ⟨hi1, hi2, hi3⟩ := ih t tk' ob hold
          refine ⟨?_, ?_, ?_⟩ <;> simp <;> omega
      · rw [if_neg hk] at hb
        exact ih u tk b hb
  | wd s a tOk u' tk' amt hs ih =>
    intro u tk b hb
    rcases withdraw_spec s a tOk u' tk' amt with ⟨e, _, he⟩ | ⟨b0, hb0, h1, h2, he⟩
    · rw [he] at hb
      exact ih u tk b hb
    · rw [he] at hb
      simp only [setBalance] at hb
      by_cases hk : u = u' ∧ tk = tk'
      · rw [if_pos hk] at hb
        obtain ⟨hi1, hi2, hi3⟩ := ih u' tk' b0 hb0
        injection hb with hb'
        subst hb'
        refine ⟨?_, ?_, ?_⟩ <;> dsimp only <;> omega
      · rw [if_neg hk] at hb
        exact ih u tk b hb

/-! Concrete example runs used to instantiate the theorems. -/

/-- Example run: participant 0 tips 100 units of token 5 to participant 2
at ledger time 7, sequence 1. -/
def exRun : State := (send_tip initState true true 7 1 0 2 5 100 "thanks").2

/-- Example run continued: participant 2 then withdraws 40 units of
token 5. -/
def exRun2 : State := (withdraw exRun true true 2 5 40).2

lemma exRun_reachable : Reachable exRun :=
  Reachable.tip initState true true 7 1 0 2 5 100 "thanks" Reachable.init

lemma exRun2_reachable : Reachable exRun2 :=
  Reachable.wd exRun true true 2 5 40 exRun_reachable

/-- C1: in every reachable state, every persisted Balance record
satisfies total_received = available + withdrawn; the mutations of
send_tip (the deposit to the recipient) and of withdraw both preserve
the equation. -/
theorem C1_balance_equation (s : State) (h : Reachable s) (u tk : Addr) (b : Balance)
    (hb : s.balances u tk = some b) :
    b.total_received = b.available + b.withdrawn :=
  (reachable_balance h u tk b hb).1

theorem C1_balance_equation_witness :
    Balance.total_received ⟨100, 60, 40, 5⟩ =
      Balance.available ⟨100, 60, 40, 5⟩ + Balance.withdrawn ⟨100, 60, 40, 5⟩ :=
  C1_balance_equation exRun2 exRun2_reachable 2 5 ⟨100, 60, 40, 5⟩ (by decide)

/-- C5: in every reachable state, every persisted Balance record has
available ≥ 0 and withdrawn ≥ 0; every operation preserves these
bounds. -/
theorem C5_balance_nonneg (s : State) (h : Reachable s) (u tk : Addr) (b : Balance)
    (hb : s.balances u tk = some b) :
    0 ≤ b.available ∧ 0 ≤ b.withdrawn :=
  (reachable_balance h u tk b hb).2

theorem C5_balance_nonneg_witness :
    (0 : Int) ≤ Balance.available ⟨100, 100, 0, 5⟩ ∧
      (0 : Int) ≤ Balance.withdrawn ⟨100, 100, 0, 5⟩ :=
  C5_balance_nonneg exRun exRun_reachable 2 5 ⟨100, 100, 0, 5⟩ (by decide)

/-- C3: send_tip fails with a distinct error for each violated
precondition — non-positive amount, self tip, over-long message, missing
authorization — and on any failure the storage is unchanged (no Tip is
appended, no Balance or UserProfile record is written). -/
theorem C3_send_tip_preconditions (s : State) (a tOk : Bool) (now seq : Nat)
    (f t tk : Addr) (amt : Int) (msg : String) :
    (a = false →
      send_tip s a tOk now seq f t tk amt msg = (Except.error Err.AuthorizationError, s)) ∧
    (a = true → amt ≤ 0 →
      send_tip s a tOk now seq f t tk amt msg = (Except.error Err.InvalidAmountError, s)) ∧
    (a = true → 0 < amt → f = t →
      send_tip s a tOk now seq f t tk amt msg = (Except.error Err.SelfTipError, s)) ∧
    (a = true → 0 < amt → f ≠ t → 256 < msg.length →
      send_tip s a tOk now seq f t tk amt msg = (Except.error Err.MessageTooLongError, s)) ∧
    (∀ e, (send_tip s a tOk now seq f t tk amt msg).1 = Except.error e →
      (send_tip s a tOk now seq f t tk amt msg).2 = s) := by
  refine ⟨?_, ?_, ?_, ?_, ?_⟩
  · intro ha; simp [send_tip, ha]
  · intro ha h; simp [send_tip, ha, not_lt.mpr h]
  · intro ha h1 h2; simp [send_tip, ha, h1, h2]
  · intro ha h1 h2 h3; simp [send_tip, ha, h1, h2, not_le.mpr h3]
  · intro e he
    rcases send_tip_spec s a tOk now seq f t tk amt msg with ⟨e', _, h2⟩ | ⟨_, _, _, _, _, h1, _⟩
    · exact h2
    · rw [h1] at he; cases he

theorem C3_send_tip_preconditions_witness :
    send_tip initState true true 7 1 0 2 5 0 "hi" = (Except.error Err.InvalidAmountError, initState) :=
  (C3_send_tip_preconditions initState true true 7 1 0 2 5 0 "hi").2.1 rfl (by decide)

/-- C4: withdraw fails with NoBalanceError when no Balance record exists
for (user, token) and with InsufficientBalanceError when available <
amount; in these failure cases — and for non-positive amounts — the
stored Balance record is unchanged. -/
theorem C4_withdraw_failures (s : State) (tOk : Bool) (u tk : Addr) (amt : Int) :
    (0 < amt → s.balances u tk = none →
      withdraw s true tOk u tk amt = (Except.error Err.NoBalanceError, s)) ∧
    (∀ b, 0 < amt → s.balances u tk = some b → b.available < amt →
      withdraw s true tOk u tk amt = (Except.error Err.InsufficientBalanceError, s)) ∧
    (amt ≤ 0 → withdraw s true tOk u tk amt = (Except.error Err.InvalidAmountError, s)) := by
  refine ⟨?_, ?_, ?_⟩
  · intro h1 hb; simp [withdraw, h1, hb]
  · intro b h1 hb h2; simp [withdraw, h1, hb, ge_iff_le, not_le.mpr h2]
  · intro h; simp [withdraw, not_lt.mpr h]

theorem C4_withdraw_failures_witness :
    withdraw exRun true true 2 5 1000 = (Except.error Err.InsufficientBalanceError, exRun) :=
  (C4_withdraw_failures exRun true 2 5 1000).2.1 ⟨100, 100, 0, 5⟩ (by decide) (by decide) (by decide)

/-- C2 counterexample: from a reachable state in which user 2 holds an
available balance of 100 for token 5, a withdraw of 40 whose outbound
transfer fails still leaves the decremented balance persisted — the
claim that a transfer failure leaves the Balance record unchanged is
false of this code. -/
theorem C2_counterexample :
    (withdraw exRun true false 2 5 40).1 = Except.error Err.TransferFailure ∧
    (withdraw exRun true false 2 5 40).2.balances 2 5 ≠ exRun.balances 2 5 :=
  ⟨rfl, by decide⟩

/-- C2 amended: in send_tip the external transfer precedes every
owned-state write, so a transfer failure aborts with the storage
unchanged; in withdraw the decremented balance is persisted before the
transfer is attempted and no rollback is applied, so a transfer failure
leaves the mutated Balance record in storage. -/
theorem C2_transfer_ordering (s : State) (a : Bool) (now seq : Nat) (f t tk : Addr)
    (amt : Int) (msg : String) (u tk2 : Addr) (amt2 : Int) (b : Balance)
    (hb : s.balances u tk2 = some b) (h1 : 0 < amt2) (h2 : amt2 ≤ b.available) :
    (send_tip s a false now seq f t tk amt msg).2 = s ∧
    (∃ e, (send_tip s a false now seq f t tk amt msg).1 = Except.error e) ∧
    (withdraw s true false u tk2 amt2).1 = Except.error Err.TransferFailure ∧
    (withdraw s true false u tk2 amt2).2.balances u tk2 =
      some { b with available := b.available - amt2, withdrawn := b.withdrawn + amt2 } := by
  have hsend := send_tip_spec s a false now seq f t tk amt msg
  rcases hsend with ⟨e, he1, he2⟩ | ⟨_, htk, _⟩
  · refine ⟨he2, ⟨e, he1⟩, ?_, ?_⟩
    · simp [withdraw, h1, hb, ge_iff_le, h2]
    · simp [withdraw, h1, hb, ge_iff_le, h2, setBalance]
  · cases htk

theorem C2_transfer_ordering_witness :
    (send_tip exRun true false 8 2 0 3 5 10 "x").2 = exRun ∧
    (∃ e, (send_tip exRun true false 8 2 0 3 5 10 "x").1 = Except.error e) ∧
    (withdraw exRun true false 2 5 40).1 = Except.error Err.TransferFailure ∧
    (withdraw exRun true false 2 5 40).2.balances 2 5 = some ⟨100, 60, 40, 5⟩ :=
  C2_transfer_ordering exRun true 8 2 0 3 5 10 "x" 2 5 40 ⟨100, 100, 0, 5⟩
    (by decide) (by decide) (by decide)

/-! Runs of send_tip calls, for the tip-log claim. -/

/-- The inputs of one `send_tip` call, environment oracles included. -/
structure TipReq where
  authOk : Bool
  transferOk : Bool
  now : Nat
  seq : Nat
  from_ : Addr
  to_ : Addr
  token : Addr
  amount : Int
  message : String
deriving Repr, DecidableEq

/-- The Tip record an accepted call with these inputs appends. -/
def mkTip (r : TipReq) : Tip :=
  ⟨r.from_, r.to_, r.amount, r.message, r.now, r.token⟩

/-- Perform one `send_tip` call from a request. -/
def doTip (s : State) (r : TipReq) : Except Err Nat × State :=
  send_tip s r.authOk r.transferOk r.now r.seq r.from_ r.to_ r.token r.amount r.message

/-- Run a sequence of `send_tip` calls, demanding that every call is
accepted (`none` as soon as one fails). -/
def runAccepted : State → List TipReq → Option State
  | s, [] => some s
  | s, r :: rs =>
    match doTip s r with
    | (Except.ok _, s') => runAccepted s' rs
    | (Except.error _, _) => none

/-- An accepted `send_tip` call appends exactly its one Tip record at the
end of the log. -/
lemma send_tip_ok_tips (s : State) (r : TipReq) (n : Nat)
    (h : (doTip s r).1 = Except.ok n) :
    (doTip s r).2.tips = s.tips ++ [mkTip r] := by
  rcases send_tip_spec s r.authOk r.transferOk r.now r.seq r.from_ r.to_ r.token r.amount
      r.message with ⟨e, he1, _⟩ | ⟨_, _, _, _, _, _, he2⟩
  · rw [doTip] at h
    rw [he1] at h
    cases h
  · rw [doTip, he2]
    simp [mkTip]

/-- Tips accumulated by a fully accepted run. -/
lemma runAccepted_tips (rs : List TipReq) :
    ∀ s s', runAccepted s rs = some s' → s'.tips = s.tips ++ rs.map mkTip := by
  induction rs with
  | nil =>
    intro s s' h
    simp only [runAccepted, Option.some.injEq] at h
    subst h
    simp
  | cons r rs ih =>
    intro s s' h
    simp only [runAccepted] at h
    cases hres : doTip s r with
    | mk res s1 =>
      rw [hres] at h
      cases res with
      | error e => cases h
      | ok n =>
        have h2 : s1.tips = s.tips ++ [mkTip r] := by
          have h3 := send_tip_ok_tips s r n (by rw [hres])
          rwa [hres] at h3
        rw [ih s1 s' h, h2, List.map_cons]
        simp

/-- C6: starting from the empty state, after a run of N accepted
send_tip calls, get_total_tips_count returns N and the tip log contains
exactly the N Tip records of those calls, in call order. -/
theorem C6_tip_log (rs : List TipReq) (s : State) (h : runAccepted initState rs = some s) :
    s.tips = rs.map mkTip ∧ (get_total_tips_count s).1 = rs.length := by
  have ht := runAccepted_tips rs initState s h
  simp only [initState, List.nil_append] at ht
  exact ⟨ht, by simp [get_total_tips_count, ht]⟩

/-- Requests of a concrete two-call run. -/
def exReqs : List TipReq :=
  [⟨true, true, 7, 1, 0, 2, 5, 100, "thanks"⟩, ⟨true, true, 8, 2, 2, 0, 5, 30, "cheers"⟩]

theorem C6_tip_log_witness :
    ((runAccepted initState exReqs).getD initState).tips = exReqs.map mkTip ∧
    (get_total_tips_count ((runAccepted initState exReqs).getD initState)).1 = exReqs.length :=
  C6_tip_log exReqs ((runAccepted initState exReqs).getD initState) rfl

/-! Profile bookkeeping lemmas, for the aggregate-sum claim. -/

lemma totalSentOf_update_balance (s : State) (u tk : Addr) (amt : Int) (d : Bool) (p : Addr) :
    totalSentOf (update_balance s u tk amt d) p = totalSentOf s p := rfl

lemma totalReceivedOf_update_balance (s : State) (u tk : Addr) (amt : Int) (d : Bool) (p : Addr) :
    totalReceivedOf (update_balance s u tk amt d) p = totalReceivedOf s p := rfl

lemma totalSentOf_tips_set (s : State) (l : List Tip) (p : Addr) :
    totalSentOf { s with tips := l } p = totalSentOf s p := rfl

lemma totalReceivedOf_tips_set (s : State) (l : List Tip) (p : Addr) :
    totalReceivedOf { s with tips := l } p = totalReceivedOf s p := rfl

lemma totalSentOf_setBalance (s : State) (u tk : Addr) (b : Balance) (p : Addr) :
    totalSentOf (setBalance s u tk b) p = totalSentOf s p := rfl

lemma totalReceivedOf_setBalance (s : State) (u tk : Addr) (b : Balance) (p : Addr) :
    totalReceivedOf (setBalance s u tk b) p = totalReceivedOf s p := rfl

/-- The sender update adds the amount to the sender's recorded
total_sent and to nobody else's. -/
lemma totalSentOf_update_sender (s : State) (now : Nat) (u : Addr) (amt : Int) (p : Addr) :
    totalSentOf (update_sender_profile s now u amt) p =
      if p = u then totalSentOf s p + amt else totalSentOf s p := by
  by_cases h : p = u
  · subst h
    simp only [totalSentOf, update_sender_profile, setProfile, if_pos rfl]
    cases hp : s.profiles p <;> simp
  · simp only [totalSentOf, update_sender_profile, setProfile, if_neg h]

/-- The sender update never changes any recorded total_received. -/
lemma totalReceivedOf_update_sender (s : State) (now : Nat) (u : Addr) (amt : Int) (p : Addr) :
    totalReceivedOf (update_sender_profile s now u amt) p = totalReceivedOf s p := by
  by_cases h : p = u
  · subst h
    simp only [totalReceivedOf, update_sender_profile, setProfile, if_pos rfl]
    cases hp : s.profiles p <;> simp
  · simp only [totalReceivedOf, update_sender_profile, setProfile, if_neg h]

/-- The recipient update adds the amount to the recipient's recorded
total_received and to nobody else's. -/
lemma totalReceivedOf_update_recipient (s : State) (now : Nat) (u : Addr) (amt : Int) (p : Addr) :
    totalReceivedOf (update_recipient_profile s now u amt) p =
      if p = u then totalReceivedOf s p + amt else totalReceivedOf s p := by
  by_cases h : p = u
  · subst h
    simp only [totalReceivedOf, update_recipient_profile, setProfile, if_pos rfl]
    cases hp : s.profiles p <;> simp
  · simp only [totalReceivedOf, update_recipient_profile, setProfile, if_neg h]

/-- The recipient update never changes any recorded total_sent. -/
lemma totalSentOf_update_recipient (s : State) (now : Nat) (u : Addr) (amt : Int) (p : Addr) :
    totalSentOf (update_recipient_profile s now u amt) p = totalSentOf s p := by
  by_cases h : p = u
  · subst h
    simp only [totalSentOf, update_recipient_profile, setProfile, if_pos rfl]
    cases hp : s.profiles p <;> simp
  · simp only [totalSentOf, update_recipient_profile, setProfile, if_neg h]

lemma sentSum_append (p : Addr) (l : List Tip) (tp : Tip) :
    sentSum p (l ++ [tp]) = sentSum p l + if tp.from_ = p then tp.amount else 0 := by
  by_cases h : tp.from_ = p <;> simp [sentSum, List.filter_append, h]

lemma recvSum_append (p : Addr) (l : List Tip) (tp : Tip) :
    recvSum p (l ++ [tp]) = recvSum p l + if tp.to_ = p then tp.amount else 0 := by
  by_cases h : tp.to_ = p <;> simp [recvSum, List.filter_append, h]

/-- Invariant of every reachable storage: the recorded per-user
aggregates equal the sums over the tip log (0 for users without a
profile record). -/
lemma reachable_profile {s : State} (h : Reachable s) :
    ∀ p, totalSentOf s p = sentSum p s.tips ∧ totalReceivedOf s p = recvSum p s.tips := by
  induction h with
  | init =>
    intro p
    simp [initState, totalSentOf, totalReceivedOf, sentSum, recvSum]
  | tip s a tOk now seq f t tk amt msg hs ih =>
    intro p
    obtain ⟨ihs, ihr⟩ := ih p
    rcases send_tip_spec s a tOk now seq f t tk amt msg with ⟨e, _, he⟩ | ⟨_, _, _, hft, _, _, he⟩
    · rw [he]
      exact ⟨ihs, ihr⟩
    · rw [he]
      constructor
      · rw [totalSentOf_update_recipient, totalSentOf_update_sender,
          totalSentOf_update_balance, totalSentOf_tips_set,
          update_recipient_profile_tips, update_sender_profile_tips, update_balance_tips]
        show _ = sentSum p (s.tips ++ [⟨f, t, amt, msg, now, tk⟩])
        rw [sentSum_append, ← ihs]
        by_cases hpf : p = f
        · subst hpf
          simp
        · simp [hpf, Ne.symm hpf]
      · rw [totalReceivedOf_update_recipient, totalReceivedOf_update_sender,
          totalReceivedOf_update_balance, totalReceivedOf_tips_set,
          update_recipient_profile_tips, update_sender_profile_tips, update_balance_tips]
        show _ = recvSum p (s.tips ++ [⟨f, t, amt, msg, now, tk⟩])
        rw [recvSum_append, ← ihr]
        by_cases hpt : p = t
        · subst hpt
          simp
        · simp [hpt, Ne.symm hpt]
  | wd s a tOk u tk amt hs ih =>
    intro p
    obtain ⟨ihs, ihr⟩ := ih p
    rcases withdraw_spec s a tOk u tk amt with ⟨e, _, he⟩ | ⟨b0, _, _, _, he⟩
    · rw [he]
      exact ⟨ihs, ihr⟩
    · rw [he]
      rw [totalSentOf_setBalance, totalReceivedOf_setBalance, setBalance_tips]
      exact ⟨ihs, ihr⟩

/-- C7: in every reachable state, every stored UserProfile records as
total_sent the sum of the amounts of all logged tips sent by that user,
and as total_received the sum over all logged tips received by that
user; withdrawals affect neither. -/
theorem C7_profile_sums (s : State) (h : Reachable s) (p : Addr) (pr : UserProfile)
    (hp : s.profiles p = some pr) :
    pr.total_sent = sentSum p s.tips ∧ pr.total_received = recvSum p s.tips := by
  obtain ⟨hs, hr⟩ := reachable_profile h p
  rw [totalSentOf, hp] at hs
  rw [totalReceivedOf, hp] at hr
  exact ⟨hs, hr⟩

theorem C7_profile_sums_witness :
    UserProfile.total_sent ⟨1, 0, 100, 0, 7⟩ = sentSum 0 exRun2.tips ∧
    UserProfile.total_received ⟨1, 0, 100, 0, 7⟩ = recvSum 0 exRun2.tips :=
  C7_profile_sums exRun2 exRun2_reachable 0 ⟨1, 0, 100, 0, 7⟩ (by decide)

/-- The push-back loop of get_tips_for_user is a filter of the log. -/
lemma tips_loop_eq_filter (p : Addr) (l : List Tip) :
    ∀ acc, l.foldl (fun acc tp => if tp.to_ == p then acc ++ [tp] else acc) acc =
      acc ++ l.filter (fun tp => tp.to_ == p) := by
  induction l with
  | nil => intro acc; simp
  | cons tp l ih =>
    intro acc
    rw [List.foldl_cons, List.filter_cons]
    cases h : tp.to_ == p with
    | false =>
      simp only [h, Bool.false_eq_true, if_false]
      exact ih acc
    | true => rw [if_pos rfl, if_pos rfl, ih (acc ++ [tp]), List.append_assoc, List.singleton_append]

/-- C8: get_tips_for_user returns exactly the subsequence of the full
tip log whose records have to == user, in log order, and performs no
write. -/
theorem C8_tips_for_user (s : State) (p : Addr) :
    (get_tips_for_user s p).1 = s.tips.filter (fun tp => tp.to_ == p) ∧
    (get_tips_for_user s p).2 = s := by
  refine ⟨?_, rfl⟩
  rw [get_tips_for_user]
  simpa using tips_loop_eq_filter p s.tips []

/-- C9 counterexample: get_user_profile depends on the ledger timestamp
when no profile record exists — two calls on the very same storage (so
with no intervening write) at clock readings 0 and 1 return different
default profiles.  The claim's unconditional read-idempotence is false
of the code. -/
theorem C9_counterexample :
    (get_user_profile initState 0 0).1 ≠ (get_user_profile initState 1 0).1 := by
  decide

/-- C9 amended: the three reads perform no write (each returns the
storage unchanged); get_balance and get_tips_for_user depend only on the
storage, so repeating them with no intervening write returns identical
results; get_user_profile is likewise repeatable whenever a profile
record exists — only its non-persisted default varies with the ledger
timestamp. -/
theorem C9_reads (s : State) (u tk p q : Addr) (now now2 : Nat) :
    (get_balance s u tk).2 = s ∧
    (get_user_profile s now q).2 = s ∧
    (get_tips_for_user s p).2 = s ∧
    (∀ pr, s.profiles q = some pr →
      (get_user_profile s now q).1 = (get_user_profile s now2 q).1) := by
  refine ⟨rfl, rfl, rfl, ?_⟩
  intro pr hp
  simp [get_user_profile, hp]

theorem C9_reads_witness :
    (get_user_profile exRun 3 0).1 = (get_user_profile exRun 9 0).1 :=
  (C9_reads exRun 0 5 2 0 3 9).2.2.2 ⟨1, 0, 100, 0, 7⟩ (by decide)

/-- C10: an accepted send_tip leaves every Balance record of the sender
unchanged for every token, and more generally modifies no Balance record
other than the recipient's (to, token) one — the sender's funds move via
the external token transfer, not via any contract-maintained balance. -/
theorem C10_sender_balance_frame (s : State) (a tOk : Bool) (now seq : Nat)
    (f t tk : Addr) (amt : Int) (msg : String) (n : Nat)
    (h : (send_tip s a tOk now seq f t tk amt msg).1 = Except.ok n) :
    (∀ tk', (send_tip s a tOk now seq f t tk amt msg).2.balances f tk' = s.balances f tk') ∧
    (∀ u' tk', u' ≠ t ∨ tk' ≠ tk →
      (send_tip s a tOk now seq f t tk amt msg).2.balances u' tk' = s.balances u' tk') := by
  rcases send_tip_spec s a tOk now seq f t tk amt msg with ⟨e, he1, _⟩ | ⟨_, _, _, hft, _, _, he⟩
  · rw [he1] at h
    cases h
  · have frame : ∀ u' tk', u' ≠ t ∨ tk' ≠ tk →
        (send_tip s a tOk now seq f t tk amt msg).2.balances u' tk' = s.balances u' tk' := by
      intro u' tk' hne
      rw [he]
      simp only [update_recipient_profile_balances, update_sender_profile_balances,
        update_balance, setBalance]
      rw [if_neg]
      rcases hne with hne | hne <;> simp [hne]
    exact ⟨fun tk' => frame f tk' (Or.inl hft), frame⟩

theorem C10_sender_balance_frame_witness :
    (∀ tk', (send_tip initState true true 7 1 0 2 5 100 "thanks").2.balances 0 tk' =
      initState.balances 0 tk') ∧
    (∀ u' tk', u' ≠ 2 ∨ tk' ≠ 5 →
      (send_tip initState true true 7 1 0 2 5 100 "thanks").2.balances u' tk' =
        initState.balances u' tk') :=
  C10_sender_balance_frame initState true true 7 1 0 2 5 100 "thanks" 1 rfl

end Microtip
